import Mathlib

/-!
Shallow embedding of peetch's eBPF uprobe program
(src/peetch/ebpf_programs/peetch_uprobes.c) and proofs about it.

The program observes three instrumentation points — the connect syscall
tracepoint, SSL_read entry/return and SSL_write entry — and correlates them
through three pid-keyed hash maps (pid_cache, SSL_read_buffers,
tls_information_cache), emitting tls_event_t records through a perf buffer.

Modelling conventions:
* machine integers are Nat (unsigned) or Int (signed C int), with the C
  conversions made explicit (toU16 / toU32 are the modular truncations);
* a cross-address-space read (bpf_probe_read) is a fallible oracle supplied
  by the environment: an Option result, or a Memory (byte oracle) for the
  payload capture; a failed read inside parse_session zero-fills its
  destination buffer and execution continues, as the helper does;
* uninitialized C struct fields are arbitrary junk values passed in by the
  environment, since the source never initializes them;
* the per-cpu perf output is modelled as the list of events submitted by a
  handler invocation; each handler is a pure function from the three-map
  state (plus its oracle inputs) to a new state and the submitted events.
-/

namespace Peetch

/-- Address family constant: AF_INET is 2 on Linux. -/
def AF_INET : Nat := 2

/-- C conversion of a signed integer to u16 (modular, two's complement). -/
def toU16 (i : Int) : Nat := (i % 65536).toNat

/-- C conversion of a signed integer to u32 (modular, two's complement). -/
def toU32 (i : Int) : Nat := (i % 4294967296).toNat

/-- The fields of struct sockaddr_in that the tracepoint handler reads. -/
structure SockAddrIn where
  sin_family : Nat
  sin_port : Nat
  sin_addr : Nat
  deriving DecidableEq

/-- struct tls_event_t: the record sent to userland (and the value stored in
pid_cache by the connect tracepoint). Fixed-size byte arrays are lists. -/
structure TLSEvent where
  addr : Nat
  port : Nat
  tls_version : Nat
  comm : List Nat
  message : List Nat
  message_length : Nat
  pid : Nat
  is_read : Nat
  deriving DecidableEq

/-- struct SSL_buffer_t: SSL_* buffer information. -/
structure SSL_buffer_t where
  ptr : Nat
  length : Nat
  tls_version : Nat
  is_read : Nat
  deriving DecidableEq

/-- struct TLS_information_t: ciphersuite name and TLS 1.2 master secret. -/
structure TLS_information_t where
  ciphersuite : List Nat
  master_secret : List Nat
  deriving DecidableEq

/-- Target-process memory as seen through bpf_probe_read: a byte oracle.
A byte is None when that address cannot be read at this moment. -/
abbrev Memory := Nat → Option Nat

/-- bpf_probe_read of n bytes starting at address a: all-or-nothing. -/
def readBytes (m : Memory) (a : Nat) : Nat → Option (List Nat)
  | 0 => some []
  | n + 1 => (m a).bind fun b => (readBytes m (a + 1) n).map fun l => b :: l

/-- Oracles and external offset configuration used by parse_session:
a u64 pointer-sized read, a block read, and the three structure offsets
supplied per traced-library version (SSL_SESSION_OFFSET,
MASTER_SECRET_OFFSET, SSL_CIPHER_OFFSET). -/
structure ParseEnv where
  readU64 : Nat → Option Nat
  readBlock : Nat → Nat → Option (List Nat)
  SSL_SESSION_OFFSET : Nat
  MASTER_SECRET_OFFSET : Nat
  SSL_CIPHER_OFFSET : Nat

/-- parse_session: walks the ssl_st → ssl_session_st → ssl_cipher_st pointer
chain. Every read is attempted even if an earlier one failed (failures are
logged, not short-circuited); a failed bpf_probe_read zero-fills its
destination. The resulting record is what gets stored for the current pid. -/
def parse_session (env : ParseEnv) (ssl_st_ptr : Nat) : TLS_information_t :=
  let address := (env.readU64 (ssl_st_ptr + env.SSL_SESSION_OFFSET)).getD 0
  let master_secret := (env.readBlock (address + env.MASTER_SECRET_OFFSET) 48).getD
    (List.replicate 48 0)
  let address2 := (env.readU64 (address + env.SSL_CIPHER_OFFSET)).getD 0
  let address3 := (env.readU64 (address2 + 8)).getD 0
  let ciphersuite := (env.readBlock address3 32).getD (List.replicate 32 0)
  { ciphersuite := ciphersuite, master_secret := master_secret }

/-- get_tls_version: reads struct ssl_st and returns its int version field as
u16. versionRead is the bpf_probe_read result (None = failure). On failure the
C function returns -1 through its u16 return type, i.e. 65535. -/
def get_tls_version (versionRead : Option Int) : Nat :=
  match versionRead with
  | none => toU16 (-1)
  | some v => toU16 v

/-- The three BPF hash maps, all keyed by pid (lower 32 bits of
bpf_get_current_pid_tgid). BPF_HASH(SSL_read_buffers, u32) uses BCC's
two-argument form, whose leaf type defaults to u64: each update copies only
the first 8 bytes of the supplied SSL_buffer_t, i.e. its ptr field, so the
map's value is a bare u64 buffer address, not the whole struct. pid_cache
has the same default u64 leaf; the 8 bytes it stores are the first 8 bytes
of tls_event_t, exactly the addr (u32) and port (u16) + tls_version (u16)
fields, and the only members ever read back (event->addr, event->port) lie
inside them, so it is modelled extensionally by the stored record. -/
structure ProbeState where
  pid_cache : Nat → Option TLSEvent
  SSL_read_buffers : Nat → Option Nat
  tls_information_cache : Nat → Option TLS_information_t

/-- map.update: upsert, unconditionally overwriting. -/
def mapUpdate {V : Type} (m : Nat → Option V) (k : Nat) (v : V) : Nat → Option V :=
  fun q => if q = k then some v else m q

/-- map.delete. -/
def mapDelete {V : Type} (m : Nat → Option V) (k : Nat) : Nat → Option V :=
  fun q => if q = k then none else m q

/-- Compile-time configuration: the DIRECTIONS macro substituted in by the
Python loader, controlling whether pid_cache is flushed after an emission. -/
structure Config where
  DIRECTIONS : Bool

/-- The tls_event_t value built by the connect tracepoint: designated
initializers set port and addr, every other member is zero-initialized. -/
def connEvent (addr_in : SockAddrIn) : TLSEvent :=
  { addr := addr_in.sin_addr, port := addr_in.sin_port, tls_version := 0,
    comm := List.replicate 64 0, message := List.replicate 64 0,
    message_length := 0, pid := 0, is_read := 0 }

/-- TRACEPOINT_PROBE(syscalls, sys_enter_connect): read the sockaddr_in from
the caller (discard on failure), discard everything but IPv4, then store the
connection record for the pid. -/
def sys_enter_connect (st : ProbeState) (pid : Nat) (sockaddrRead : Option SockAddrIn) :
    ProbeState :=
  match sockaddrRead with
  | none => st
  | some addr_in =>
    if addr_in.sin_family ≠ AF_INET then st
    else { st with pid_cache := mapUpdate st.pid_cache pid (connEvent addr_in) }

/-- SSL_read_write: the shared emission routine. Needs a non-null buffer and a
pid_cache entry; reads exactly 64 bytes (sizeof new_event.message) from the
buffer pointer, discarding the event if that read fails; submits exactly one
event; flushes pid_cache when DIRECTIONS is set. -/
def SSL_read_write (cfg : Config) (st : ProbeState) (pid : Nat) (comm : List Nat)
    (mem : Memory) (tls_version : Nat) (buffer : Option SSL_buffer_t) :
    ProbeState × List TLSEvent :=
  match buffer with
  | none => (st, [])
  | some buf =>
    match st.pid_cache pid with
    | none => (st, [])
    | some event =>
      match readBytes mem buf.ptr 64 with
      | none => (st, [])
      | some message =>
        ((if cfg.DIRECTIONS then { st with pid_cache := mapDelete st.pid_cache pid }
          else st),
         [{ addr := event.addr, port := event.port, tls_version := tls_version,
            comm := comm, message := message, message_length := buf.length,
            pid := pid, is_read := buf.is_read }])

/-- SSL_read (uprobe on entry): build a stack SSL_buffer_t holding the buffer
pointer (second argument) and the TLS version extracted from the first
argument (length and is_read stay uninitialized junk), then update
SSL_read_buffers. Because the map's leaf defaults to u64, the update through
the (u64*) cast persists only the first 8 bytes of the struct — buffer.ptr;
the extracted TLS version never reaches the map. -/
def SSL_read (st : ProbeState) (pid bufPtr : Nat) (versionRead : Option Int)
    (junkLength junkIsRead : Nat) : ProbeState :=
  let buffer : SSL_buffer_t :=
    { ptr := bufPtr, length := junkLength,
      tls_version := get_tls_version versionRead, is_read := junkIsRead }
  { st with SSL_read_buffers := mapUpdate st.SSL_read_buffers pid buffer.ptr }

/-- Helper for the unconditional SSL_read_buffers.delete after emission. -/
def deleteReadBuffer (st : ProbeState) (pid : Nat) : ProbeState :=
  { st with SSL_read_buffers := mapDelete st.SSL_read_buffers pid }

/-- SSL_read_ret (uretprobe): discard when the return value is exactly -1;
look up the pending entry (discard when absent) — the map leaf is a u64, so
the lookup yields only the stored buffer pointer; rebuild a descriptor with
that pointer, the returned length (u32-converted) and direction read (its
tls_version field is never assigned, hence junk). The "Retrieve the TLS
version" bpf_probe_read copies sizeof(SSL_buffer_t) = 24 bytes from the
8-byte map leaf into tmp: its ptr field gets the stored pointer, but its
length, tls_version and is_read fields land past the leaf, in adjacent
out-of-bounds kernel memory (oracles oobLength, oobTlsVersion, oobIsRead);
on read failure (mapReadOk = false) return without deleting. The version
forwarded to SSL_read_write is therefore tmp.tls_version — out-of-bounds
garbage, converted u32 → u16 — after which the pending entry is deleted. -/
def SSL_read_ret (cfg : Config) (st : ProbeState) (pid : Nat) (retVal : Int)
    (mapReadOk : Bool) (oobLength oobTlsVersion oobIsRead : Nat)
    (junkTlsVersion : Nat) (comm : List Nat) (mem : Memory) :
    ProbeState × List TLSEvent :=
  if retVal = -1 then (st, [])
  else
    match st.SSL_read_buffers pid with
    | none => (st, [])
    | some bufferPtr =>
      if mapReadOk then
        let tmp : SSL_buffer_t :=
          { ptr := bufferPtr, length := oobLength,
            tls_version := oobTlsVersion, is_read := oobIsRead }
        let r := SSL_read_write cfg st pid comm mem (tmp.tls_version % 65536)
          (some { ptr := bufferPtr, length := toU32 retVal,
                  tls_version := junkTlsVersion, is_read := 1 })
        (deleteReadBuffer r.1 pid, r.2)
      else (st, [])

/-- SSL_write (uprobe on entry): build a descriptor from the call arguments
(pointer = second argument, length = third argument truncated to u32,
direction write; tls_version never assigned, hence junk), extract the TLS
version from the first argument, run parse_session unconditionally, then emit
via SSL_read_write. -/
def SSL_write (cfg : Config) (st : ProbeState) (pid sslPtr bufPtr len : Nat)
    (versionRead : Option Int) (junkTlsVersion : Nat) (penv : ParseEnv)
    (comm : List Nat) (mem : Memory) : ProbeState × List TLSEvent :=
  let st1 : ProbeState :=
    { st with tls_information_cache :=
        mapUpdate st.tls_information_cache pid (parse_session penv sslPtr) }
  SSL_read_write cfg st1 pid comm mem (get_tls_version versionRead)
    (some { ptr := bufPtr, length := len % 4294967296,
            tls_version := junkTlsVersion, is_read := 0 })

/-- One observable instrumentation-point firing, with its oracle inputs. -/
inductive Op where
  | connect (pid : Nat) (sockaddrRead : Option SockAddrIn)
  | sslRead (pid bufPtr : Nat) (versionRead : Option Int) (junkLength junkIsRead : Nat)
  | sslReadRet (pid : Nat) (retVal : Int) (mapReadOk : Bool)
      (oobLength oobTlsVersion oobIsRead : Nat) (junkTlsVersion : Nat)
      (comm : List Nat) (mem : Memory)
  | sslWrite (pid sslPtr bufPtr len : Nat) (versionRead : Option Int)
      (junkTlsVersion : Nat) (penv : ParseEnv) (comm : List Nat) (mem : Memory)

/-- Run one handler invocation. -/
def step (cfg : Config) (st : ProbeState) : Op → ProbeState × List TLSEvent
  | .connect pid sa => (sys_enter_connect st pid sa, [])
  | .sslRead pid bufPtr vr jl jir => (SSL_read st pid bufPtr vr jl jir, [])
  | .sslReadRet pid rv mok obl obv obr jtv comm mem =>
      SSL_read_ret cfg st pid rv mok obl obv obr jtv comm mem
  | .sslWrite pid sslPtr bufPtr len vr jtv penv comm mem =>
      SSL_write cfg st pid sslPtr bufPtr len vr jtv penv comm mem

/-- Run a whole trace, collecting the submitted events in order. -/
def run (cfg : Config) (st : ProbeState) : List Op → ProbeState × List TLSEvent
  | [] => (st, [])
  | op :: ops =>
    let r1 := step cfg st op
    let r2 := run cfg r1.1 ops
    (r2.1, r1.2 ++ r2.2)

/-- An op is a successful IPv4 connection observation for pid exactly when it
is a connect whose sockaddr read succeeded with family AF_INET. -/
def establishesIPv4 (pid : Nat) : Op → Bool
  | .connect p (some sa) => (p == pid) && (sa.sin_family == AF_INET)
  | _ => false

/-- The true requested length an emitting op carries: the third call argument
for a write (u32-truncated), the return value for a read (u32-converted). -/
def opRequestedLength : Op → Option Nat
  | .sslWrite _ _ _ len _ _ _ _ _ => some (len % 4294967296)
  | .sslReadRet _ rv _ _ _ _ _ _ _ => some (toU32 rv)
  | _ => none

/-- The empty map state. -/
def emptyState : ProbeState :=
  { pid_cache := fun _ => none, SSL_read_buffers := fun _ => none,
    tls_information_cache := fun _ => none }

/-- A concrete configuration with no direction flush, for witnesses. -/
def cfg0 : Config := { DIRECTIONS := false }

/-- A concrete fully readable memory whose every byte is 7, for witnesses. -/
def mem7 : Memory := fun _ => some 7

/-- A concrete IPv4 sockaddr, for witnesses. -/
def sa443 : SockAddrIn := { sin_family := 2, sin_port := 443, sin_addr := 5 }

/-- A second concrete IPv4 sockaddr, for witnesses. -/
def sa80 : SockAddrIn := { sin_family := 2, sin_port := 80, sin_addr := 9 }

/-- A concrete parse_session environment whose reads all fail, for witnesses. -/
def penv0 : ParseEnv :=
  { readU64 := fun _ => none, readBlock := fun _ _ => none,
    SSL_SESSION_OFFSET := 0, MASTER_SECRET_OFFSET := 0, SSL_CIPHER_OFFSET := 0 }

/-- State after pid 1 connected to sa443, for witnesses. -/
def stConn : ProbeState := sys_enter_connect emptyState 1 (some sa443)

/-- State after pid 1 entered SSL_read with buffer pointer 555, version 771
and junk fields 3 and 4 (the map keeps only the pointer 555), for
witnesses. -/
def stPend : ProbeState := SSL_read emptyState 1 555 (some 771) 3 4

/-- A concrete non-IPv4 sockaddr (family 10 = AF_INET6), for witnesses. -/
def sa10 : SockAddrIn := { sin_family := 10, sin_port := 443, sin_addr := 5 }

/-- A concrete trace with no IPv4 connect for pid 2, for witnesses. -/
def ops2 : List Op :=
  [Op.connect 2 (some sa10),
   Op.sslWrite 2 0 100 10 (some 771) 0 penv0 [] mem7,
   Op.sslReadRet 2 50 true 0 9999 0 0 [] mem7]

/-- A concrete write op with length 100 (beyond the capture window), for
witnesses. -/
def opW : Op := Op.sslWrite 1 0 100 100 (some 771) 0 penv0 [] mem7

/-- The event opW emits from stConn, for witnesses. -/
def eW : TLSEvent :=
  { addr := 5, port := 443, tls_version := 771, comm := [],
    message := List.replicate 64 7, message_length := 100, pid := 1,
    is_read := 0 }

/-- State with both a connection record and a pending read buffer for pid 1,
for witnesses. -/
def stBoth : ProbeState := SSL_read stConn 1 555 (some 771) 3 4

/-- A concrete TLS_information_t value, for witnesses. -/
def info0 : TLS_information_t := { ciphersuite := [1], master_secret := [2] }

/-- State whose secrets cache has an entry for pid 1, for witnesses. -/
def stInfo : ProbeState :=
  { pid_cache := fun _ => none, SSL_read_buffers := fun _ => none,
    tls_information_cache := fun q => if q = 1 then some info0 else none }

/-- A successful 64-byte capture read yields exactly 64 bytes. -/
theorem readBytes_length (m : Memory) :
    ∀ (n a : Nat) (l : List Nat), readBytes m a n = some l → l.length = n := by
  intro n
  induction n with
  | zero =>
    intro a l h
    simp only [readBytes, Option.some.injEq] at h
    simp [← h]
  | succ k ih =>
    intro a l h
    simp only [readBytes, Option.bind_eq_some, Option.map_eq_some'] at h
    obtain ⟨b, _, t, ht, rfl⟩ := h
    simp [ih (a + 1) t ht]

/-- A shorter read at the same address returns the prefix of a longer one. -/
theorem readBytes_take (m : Memory) :
    ∀ (k n a : Nat) (l : List Nat), readBytes m a n = some l → k ≤ n →
      readBytes m a k = some (l.take k) := by
  intro k
  induction k with
  | zero =>
    intro n a l _ _
    simp [readBytes]
  | succ j ih =>
    intro n a l h hk
    cases n with
    | zero => exact absurd hk (Nat.not_succ_le_zero j)
    | succ m' =>
      simp only [readBytes, Option.bind_eq_some, Option.map_eq_some'] at h
      obtain ⟨b, hb, t, ht, rfl⟩ := h
      have hj := ih m' (a + 1) t ht (Nat.le_of_succ_le_succ hk)
      simp [readBytes, hb, hj]

/-- toU16 always lands strictly below 2^16. -/
theorem toU16_lt (i : Int) : toU16 i < 65536 := by
  have h1 : 0 ≤ i % 65536 := Int.emod_nonneg i (by norm_num)
  have h2 : i % 65536 < 65536 := Int.emod_lt_of_pos i (by norm_num)
  unfold toU16
  omega

/-- get_tls_version always lands strictly below 2^16. -/
theorem get_tls_version_lt (vr : Option Int) : get_tls_version vr < 65536 := by
  cases vr <;> exact toU16_lt _

/-- The u32 → u16 conversion at the SSL_read_write call site is the identity
on values produced by get_tls_version. -/
theorem get_tls_version_mod (vr : Option Int) :
    get_tls_version vr % 65536 = get_tls_version vr :=
  Nat.mod_eq_of_lt (get_tls_version_lt vr)

/-- mapDelete never turns an absent entry into a present one. -/
theorem mapDelete_none {V : Type} (m : Nat → Option V) (k q : Nat)
    (h : m q = none) : mapDelete m k q = none := by
  unfold mapDelete
  split
  · rfl
  · exact h

/-- mapUpdate at the updated key. -/
theorem mapUpdate_same {V : Type} (m : Nat → Option V) (k : Nat) (v : V) :
    mapUpdate m k v k = some v := by
  simp [mapUpdate]

/-- mapUpdate at any other key. -/
theorem mapUpdate_other {V : Type} (m : Nat → Option V) (k : Nat) (v : V)
    (q : Nat) (h : q ≠ k) : mapUpdate m k v q = m q := by
  simp [mapUpdate, h]

/-- When a connection record is cached and the 64-byte capture read succeeds,
SSL_read_write emits exactly the event built from them and applies the
direction-flush policy. -/
theorem SSL_read_write_emit (cfg : Config) (st : ProbeState) (p : Nat)
    (comm : List Nat) (mem : Memory) (tv : Nat) (buf : SSL_buffer_t)
    (ev : TLSEvent) (msg : List Nat)
    (hconn : st.pid_cache p = some ev)
    (hread : readBytes mem buf.ptr 64 = some msg) :
    SSL_read_write cfg st p comm mem tv (some buf) =
      ((if cfg.DIRECTIONS then { st with pid_cache := mapDelete st.pid_cache p }
        else st),
       [{ addr := ev.addr, port := ev.port, tls_version := tv, comm := comm,
          message := msg, message_length := buf.length, pid := p,
          is_read := buf.is_read }]) := by
  simp only [SSL_read_write, hconn, hread]

/-- SSL_read_write never creates a pid_cache entry. -/
theorem SSL_read_write_pid_cache_none (cfg : Config) (st : ProbeState) (p : Nat)
    (comm : List Nat) (mem : Memory) (tv : Nat) (obuf : Option SSL_buffer_t)
    (q : Nat) (h : st.pid_cache q = none) :
    (SSL_read_write cfg st p comm mem tv obuf).1.pid_cache q = none := by
  cases obuf with
  | none => simpa [SSL_read_write] using h
  | some buf =>
    cases hc : st.pid_cache p with
    | none => simpa [SSL_read_write, hc] using h
    | some ev =>
      cases hr : readBytes mem buf.ptr 64 with
      | none => simpa [SSL_read_write, hc, hr] using h
      | some msg =>
        by_cases hd : cfg.DIRECTIONS
        · simp only [SSL_read_write, hc, hr, hd, if_true]
          exact mapDelete_none st.pid_cache p q h
        · simpa [SSL_read_write, hc, hr, hd] using h

/-- SSL_read_write never touches the secrets cache. -/
theorem SSL_read_write_tls_info (cfg : Config) (st : ProbeState) (p : Nat)
    (comm : List Nat) (mem : Memory) (tv : Nat) (obuf : Option SSL_buffer_t) :
    (SSL_read_write cfg st p comm mem tv obuf).1.tls_information_cache =
      st.tls_information_cache := by
  cases obuf with
  | none => simp [SSL_read_write]
  | some buf =>
    cases hc : st.pid_cache p with
    | none => simp [SSL_read_write, hc]
    | some ev =>
      cases hr : readBytes mem buf.ptr 64 with
      | none => simp [SSL_read_write, hc, hr]
      | some msg =>
        by_cases hd : cfg.DIRECTIONS
        · simp [SSL_read_write, hc, hr, hd]
        · simp [SSL_read_write, hc, hr, hd]

/-- Shape of any event SSL_read_write submits: owned by the current pid,
emitted only with a cached connection record, carrying a 64-byte capture and
the descriptor's length, direction and version fields. -/
theorem SSL_read_write_event_shape (cfg : Config) (st : ProbeState) (p : Nat)
    (comm : List Nat) (mem : Memory) (tv : Nat) (obuf : Option SSL_buffer_t)
    (e : TLSEvent) (he : e ∈ (SSL_read_write cfg st p comm mem tv obuf).2) :
    e.pid = p ∧ st.pid_cache p ≠ none ∧ e.message.length = 64 ∧
      e.tls_version = tv ∧
      ∃ buf, obuf = some buf ∧ e.message_length = buf.length ∧
        e.is_read = buf.is_read := by
  cases obuf with
  | none => simp [SSL_read_write] at he
  | some buf =>
    cases hc : st.pid_cache p with
    | none => simp [SSL_read_write, hc] at he
    | some ev =>
      cases hr : readBytes mem buf.ptr 64 with
      | none => simp [SSL_read_write, hc, hr] at he
      | some msg =>
        simp only [SSL_read_write, hc, hr, List.mem_singleton] at he
        subst he
        exact ⟨rfl, by simp [hc], readBytes_length mem 64 buf.ptr msg hr, rfl,
          buf, rfl, rfl, rfl⟩

/-- Shape of any event SSL_read_ret submits: owned by the current pid, only
with a cached connection record, 64-byte capture, length = u32-converted
return value, direction read. -/
theorem SSL_read_ret_event_shape (cfg : Config) (st : ProbeState) (p : Nat)
    (rv : Int) (mok : Bool) (obl obv obr jtv : Nat) (comm : List Nat)
    (mem : Memory) (e : TLSEvent)
    (he : e ∈ (SSL_read_ret cfg st p rv mok obl obv obr jtv comm mem).2) :
    e.pid = p ∧ st.pid_cache p ≠ none ∧ e.message.length = 64 ∧
      e.message_length = toU32 rv ∧ e.is_read = 1 := by
  by_cases hrv : rv = -1
  · simp [SSL_read_ret, hrv] at he
  · cases hb : st.SSL_read_buffers p with
    | none => simp [SSL_read_ret, hrv, hb] at he
    | some bufferPtr =>
      by_cases hm : mok
      · simp only [SSL_read_ret, if_neg hrv, hb, hm, if_true] at he
        have hs := SSL_read_write_event_shape cfg st p comm mem (obv % 65536)
          (some { ptr := bufferPtr, length := toU32 rv,
                  tls_version := jtv, is_read := 1 }) e he
        obtain ⟨h1, h2, h3, _, buf, hbuf, h5, h6⟩ := hs
        obtain rfl := Option.some.inj hbuf
        exact ⟨h1, h2, h3, h5, h6⟩
      · simp [SSL_read_ret, hrv, hb, hm] at he

/-- SSL_read_ret never creates a pid_cache entry. -/
theorem SSL_read_ret_pid_cache_none (cfg : Config) (st : ProbeState) (p : Nat)
    (rv : Int) (mok : Bool) (obl obv obr jtv : Nat) (comm : List Nat)
    (mem : Memory) (q : Nat) (h : st.pid_cache q = none) :
    (SSL_read_ret cfg st p rv mok obl obv obr jtv comm mem).1.pid_cache q =
      none := by
  by_cases hrv : rv = -1
  · simpa [SSL_read_ret, hrv] using h
  · cases hb : st.SSL_read_buffers p with
    | none => simpa [SSL_read_ret, hrv, hb] using h
    | some bufferPtr =>
      by_cases hm : mok
      · simp only [SSL_read_ret, if_neg hrv, hb, hm, if_true]
        exact SSL_read_write_pid_cache_none cfg st p comm mem (obv % 65536)
          (some { ptr := bufferPtr, length := toU32 rv,
                  tls_version := jtv, is_read := 1 }) q h
      · simpa [SSL_read_ret, hrv, hb, hm] using h

/-- SSL_read_ret never touches the secrets cache. -/
theorem SSL_read_ret_tls_info (cfg : Config) (st : ProbeState) (p : Nat)
    (rv : Int) (mok : Bool) (obl obv obr jtv : Nat) (comm : List Nat)
    (mem : Memory) :
    (SSL_read_ret cfg st p rv mok obl obv obr jtv comm mem).1.tls_information_cache =
      st.tls_information_cache := by
  by_cases hrv : rv = -1
  · simp [SSL_read_ret, hrv]
  · cases hb : st.SSL_read_buffers p with
    | none => simp [SSL_read_ret, hrv, hb]
    | some bufferPtr =>
      by_cases hm : mok
      · simp only [SSL_read_ret, if_neg hrv, hb, hm, if_true]
        exact SSL_read_write_tls_info cfg st p comm mem (obv % 65536)
          (some { ptr := bufferPtr, length := toU32 rv,
                  tls_version := jtv, is_read := 1 })
      · simp [SSL_read_ret, hrv, hb, hm]

/-- Shape of any event SSL_write submits: owned by the current pid, only with
a cached connection record, 64-byte capture, length = truncated third
argument, direction write, version from get_tls_version. -/
theorem SSL_write_event_shape (cfg : Config) (st : ProbeState)
    (p sslPtr bufPtr len : Nat) (vr : Option Int) (jtv : Nat) (penv : ParseEnv)
    (comm : List Nat) (mem : Memory) (e : TLSEvent)
    (he : e ∈ (SSL_write cfg st p sslPtr bufPtr len vr jtv penv comm mem).2) :
    e.pid = p ∧ st.pid_cache p ≠ none ∧ e.message.length = 64 ∧
      e.message_length = len % 4294967296 ∧ e.is_read = 0 ∧
      e.tls_version = get_tls_version vr := by
  have hs := SSL_read_write_event_shape cfg
    ({ st with tls_information_cache :=
        mapUpdate st.tls_information_cache p (parse_session penv sslPtr) })
    p comm mem (get_tls_version vr)
    (some { ptr := bufPtr, length := len % 4294967296,
            tls_version := jtv, is_read := 0 }) e he
  obtain ⟨h1, h2, h3, h4, buf, hbuf, h5, h6⟩ := hs
  obtain rfl := Option.some.inj hbuf
  exact ⟨h1, h2, h3, h5, h6, h4⟩

/-- SSL_write never creates a pid_cache entry. -/
theorem SSL_write_pid_cache_none (cfg : Config) (st : ProbeState)
    (p sslPtr bufPtr len : Nat) (vr : Option Int) (jtv : Nat) (penv : ParseEnv)
    (comm : List Nat) (mem : Memory) (q : Nat) (h : st.pid_cache q = none) :
    (SSL_write cfg st p sslPtr bufPtr len vr jtv penv comm mem).1.pid_cache q =
      none :=
  SSL_read_write_pid_cache_none cfg
    ({ st with tls_information_cache :=
        mapUpdate st.tls_information_cache p (parse_session penv sslPtr) })
    p comm mem (get_tls_version vr)
    (some { ptr := bufPtr, length := len % 4294967296,
            tls_version := jtv, is_read := 0 }) q h

/-- The secrets cache after SSL_write is exactly the update with the
parse_session result (whatever SSL_read_write then does). -/
theorem SSL_write_tls_info (cfg : Config) (st : ProbeState)
    (p sslPtr bufPtr len : Nat) (vr : Option Int) (jtv : Nat) (penv : ParseEnv)
    (comm : List Nat) (mem : Memory) :
    (SSL_write cfg st p sslPtr bufPtr len vr jtv penv comm mem).1.tls_information_cache =
      mapUpdate st.tls_information_cache p (parse_session penv sslPtr) :=
  SSL_read_write_tls_info cfg
    ({ st with tls_information_cache :=
        mapUpdate st.tls_information_cache p (parse_session penv sslPtr) })
    p comm mem (get_tls_version vr)
    (some { ptr := bufPtr, length := len % 4294967296,
            tls_version := jtv, is_read := 0 })

/-- A single step on a pid with no connection record and no IPv4 connect
leaves the record absent and emits nothing for that pid. -/
theorem step_pid_none (cfg : Config) (st : ProbeState) (op : Op) (pid : Nat)
    (h : st.pid_cache pid = none) (hop : establishesIPv4 pid op = false) :
    (step cfg st op).1.pid_cache pid = none ∧
      ∀ e ∈ (step cfg st op).2, e.pid ≠ pid := by
  cases op with
  | connect p sa =>
    refine ⟨?_, by intro e he; simp [step] at he⟩
    cases sa with
    | none => simpa [step, sys_enter_connect] using h
    | some a =>
      by_cases hf : a.sin_family = AF_INET
      · have hp : p ≠ pid := by
          intro hpp
          subst hpp
          simp [establishesIPv4, hf] at hop
        simp only [step, sys_enter_connect]
        rw [if_neg (not_not_intro hf)]
        show mapUpdate st.pid_cache p (connEvent a) pid = none
        rw [mapUpdate_other st.pid_cache p (connEvent a) pid (Ne.symm hp)]
        exact h
      · simp only [step, sys_enter_connect]
        rw [if_pos hf]
        exact h
  | sslRead p bufPtr vr jl jir =>
    exact ⟨h, by intro e he; simp [step] at he⟩
  | sslReadRet p rv mok obl obv obr jtv comm mem =>
    refine ⟨SSL_read_ret_pid_cache_none cfg st p rv mok obl obv obr jtv comm mem
      pid h, ?_⟩
    intro e he hpid
    have hs := SSL_read_ret_event_shape cfg st p rv mok obl obv obr jtv comm mem e he
    have hp : p = pid := hs.1.symm.trans hpid
    rw [hp] at hs
    exact hs.2.1 h
  | sslWrite p sslPtr bufPtr len vr jtv penv comm mem =>
    refine ⟨SSL_write_pid_cache_none cfg st p sslPtr bufPtr len vr jtv penv
      comm mem pid h, ?_⟩
    intro e he hpid
    have hs := SSL_write_event_shape cfg st p sslPtr bufPtr len vr jtv penv
      comm mem e he
    have hp : p = pid := hs.1.symm.trans hpid
    rw [hp] at hs
    exact hs.2.1 h

/-- Trace invariant behind claim C2: with no connection record and no IPv4
connect in the trace, the record stays absent and no event carries the pid. -/
theorem run_pid_none (cfg : Config) (pid : Nat) :
    ∀ (ops : List Op) (st : ProbeState), st.pid_cache pid = none →
      (∀ op ∈ ops, establishesIPv4 pid op = false) →
      (run cfg st ops).1.pid_cache pid = none ∧
        ∀ e ∈ (run cfg st ops).2, e.pid ≠ pid := by
  intro ops
  induction ops with
  | nil =>
    intro st h _
    exact ⟨h, by intro e he; simp [run] at he⟩
  | cons op rest ih =>
    intro st h hops
    have hstep := step_pid_none cfg st op pid h (hops op (List.mem_cons_self op rest))
    have hrest := ih (step cfg st op).1 hstep.1
      (fun o ho => hops o (List.mem_cons_of_mem op ho))
    refine ⟨by simpa [run] using hrest.1, ?_⟩
    intro e he
    simp only [run] at he
    rw [List.mem_append] at he
    cases he with
    | inl h1 => exact hstep.2 e h1
    | inr h2 => exact hrest.2 e h2

/-- C1: a write-routine invocation on a pid whose connection record is cached,
with the written buffer readable, emits exactly one TLSEvent with
direction=write, payload_length equal to the third call argument, and a
captured payload whose first min(64, payload_length) bytes are exactly the
first min(64, payload_length) bytes of the written buffer. -/
theorem C1_write_emits_single_event (cfg : Config) (st : ProbeState)
    (pid sslPtr bufPtr len : Nat) (versionRead : Option Int) (jtv : Nat)
    (penv : ParseEnv) (comm : List Nat) (mem : Memory) (connEv : TLSEvent)
    (msg : List Nat)
    (hconn : st.pid_cache pid = some connEv)
    (hlen : len < 4294967296)
    (hread : readBytes mem bufPtr 64 = some msg) :
    (step cfg st (Op.sslWrite pid sslPtr bufPtr len versionRead jtv penv comm mem)).2 =
      [{ addr := connEv.addr, port := connEv.port,
         tls_version := get_tls_version versionRead, comm := comm,
         message := msg, message_length := len, pid := pid, is_read := 0 }] ∧
    readBytes mem bufPtr (min 64 len) = some (msg.take (min 64 len)) := by
  constructor
  · simp only [step, SSL_write]
    rw [SSL_read_write_emit cfg
      ({ st with tls_information_cache :=
          mapUpdate st.tls_information_cache pid (parse_session penv sslPtr) })
      pid comm mem (get_tls_version versionRead)
      ({ ptr := bufPtr, length := len % 4294967296,
         tls_version := jtv, is_read := 0 }) connEv msg hconn hread]
    simp [Nat.mod_eq_of_lt hlen]
  · exact readBytes_take mem (min 64 len) 64 bufPtr msg hread (Nat.min_le_left 64 len)

/-- C2: a non-IPv4 connection observation creates no connection record, and
while no IPv4 connection observation occurs for a pid with no cached record,
that record stays absent and no TLSEvent is ever emitted for that pid
(emission always consults the cache and silently drops without an entry). -/
theorem C2_non_ipv4_never_emits (cfg : Config) (st : ProbeState) (pid : Nat)
    (sa : SockAddrIn) (ops : List Op)
    (hsa : sa.sin_family ≠ AF_INET)
    (h0 : st.pid_cache pid = none)
    (hops : ∀ op ∈ ops, establishesIPv4 pid op = false) :
    sys_enter_connect st pid (some sa) = st ∧
    (run cfg st ops).1.pid_cache pid = none ∧
    ∀ e ∈ (run cfg st ops).2, e.pid ≠ pid := by
  refine ⟨?_, (run_pid_none cfg pid ops st h0 hops).1,
    (run_pid_none cfg pid ops st h0 hops).2⟩
  simp only [sys_enter_connect]
  rw [if_pos hsa]

/-- C3: a read-routine return with value -1 emits no event and leaves the
whole state (in particular the pending read buffer) untouched, and the next
read-routine entry on the same pid overwrites the pending state (the stored
8-byte leaf, i.e. the buffer pointer) with the fresh pointer, so the stale
buffer address cannot leak. -/
theorem C3_failed_read_keeps_pending_next_entry_overwrites (cfg : Config)
    (st : ProbeState) (pid b : Nat) (mok : Bool) (obl obv obr jtv : Nat)
    (comm : List Nat) (mem : Memory) (bufPtr2 : Nat) (vr2 : Option Int)
    (jl2 jir2 : Nat)
    (hpend : st.SSL_read_buffers pid = some b) :
    (step cfg st (Op.sslReadRet pid (-1) mok obl obv obr jtv comm mem)).2 = [] ∧
    (step cfg st (Op.sslReadRet pid (-1) mok obl obv obr jtv comm mem)).1 = st ∧
    (step cfg st
        (Op.sslReadRet pid (-1) mok obl obv obr jtv comm mem)).1.SSL_read_buffers
      pid = some b ∧
    (SSL_read st pid bufPtr2 vr2 jl2 jir2).SSL_read_buffers pid = some bufPtr2 := by
  refine ⟨by simp [step, SSL_read_ret], by simp [step, SSL_read_ret],
    by simpa [step, SSL_read_ret] using hpend, ?_⟩
  simp [SSL_read, mapUpdate_same]

/-- Counterexample to C4 as stated: at a read-routine return with value -1
(pid 1, pending buffer present), the PendingReadBuffer is NOT deleted. -/
theorem C4_counterexample :
    (step cfg0 stPend
        (Op.sslReadRet 1 (-1) true 0 9999 0 0 [] mem7)).1.SSL_read_buffers 1 ≠
      none := by
  decide

/-- C4 (amended): the PendingReadBuffer for the current pid is deleted at a
read-routine return whenever the return value is not -1, a pending buffer is
present and the kernel re-read of the cached entry succeeds; a -1 return
leaves the pending buffer in place. -/
theorem C4_pending_deleted_on_successful_return (cfg : Config) (st : ProbeState)
    (pid : Nat) (retVal : Int) (obl obv obr jtv : Nat) (comm : List Nat)
    (mem : Memory) (b : Nat)
    (hret : retVal ≠ -1)
    (hpend : st.SSL_read_buffers pid = some b) :
    (step cfg st
        (Op.sslReadRet pid retVal true obl obv obr jtv comm mem)).1.SSL_read_buffers
      pid = none := by
  simp [step, SSL_read_ret, if_neg hret, hpend, deleteReadBuffer, mapDelete]

/-- C5: every emitted TLSEvent (in particular one whose true payload length
exceeds 64) carries a captured payload of exactly 64 bytes, while its
payload_length equals the true requested length of the op, unmodified by
truncation. -/
theorem C5_truncation_law (cfg : Config) (st : ProbeState) (op : Op)
    (e : TLSEvent) (he : e ∈ (step cfg st op).2)
    (_hlong : 64 < e.message_length) :
    e.message.length = 64 ∧ opRequestedLength op = some e.message_length := by
  cases op with
  | connect p sa => simp [step] at he
  | sslRead p bufPtr vr jl jir => simp [step] at he
  | sslReadRet p rv mok obl obv obr jtv comm mem =>
    have hs := SSL_read_ret_event_shape cfg st p rv mok obl obv obr jtv comm mem e he
    exact ⟨hs.2.2.1, by simp [opRequestedLength, hs.2.2.2.1]⟩
  | sslWrite p sslPtr bufPtr len vr jtv penv comm mem =>
    have hs := SSL_write_event_shape cfg st p sslPtr bufPtr len vr jtv penv
      comm mem e he
    exact ⟨hs.2.2.1, by simp [opRequestedLength, hs.2.2.2.1]⟩

/-- C6: evaluation of the code at the failing input. pid 1 holds a cached
IPv4 connection record; at SSL_read entry the version 771 is successfully
extracted from the session handle, yet the u64 map leaf keeps only the
buffer pointer (100); at the matching return (value 50, all reads succeed)
the emitted event's tls_version is the out-of-bounds value sitting past the
8-byte leaf (here 9999), not the 771 extracted at entry — contradicting the
claim (and spec section 3) that the version stored in the PendingReadBuffer
at entry is what the event carries. -/
theorem C6_version_divergence_at_failing_input :
    get_tls_version (some 771) = 771 ∧
    (SSL_read stConn 1 100 (some 771) 3 4).SSL_read_buffers 1 = some 100 ∧
    (step cfg0 (SSL_read stConn 1 100 (some 771) 3 4)
        (Op.sslReadRet 1 50 true 0 9999 0 0 [] mem7)).2.map
      (fun e => e.tls_version) = [9999] := by
  refine ⟨by decide, by decide, by decide⟩

/-- C7: a nonempty sequence of successful IPv4 connection observations on one
pid leaves exactly the record of the last observation in the cache (last
write wins, one record per pid). -/
theorem C7_connect_idempotent_last_wins (cfg : Config) (pid : Nat) :
    ∀ (sas : List SockAddrIn) (st : ProbeState), sas ≠ [] →
      (∀ sa ∈ sas, sa.sin_family = AF_INET) →
      (run cfg st (sas.map (fun sa => Op.connect pid (some sa)))).1.pid_cache pid =
        sas.getLast?.map connEvent := by
  intro sas
  induction sas with
  | nil => intro st hne _; exact absurd rfl hne
  | cons a rest ih =>
    intro st hne hfam
    cases rest with
    | nil =>
      have hf : a.sin_family = AF_INET := hfam a (List.mem_cons_self a [])
      simp only [List.map_cons, List.map_nil, run, step, sys_enter_connect]
      rw [if_neg (not_not_intro hf)]
      simp [mapUpdate_same]
    | cons b rest2 =>
      have hne2 : b :: rest2 ≠ [] := List.cons_ne_nil b rest2
      have hfam2 : ∀ sa ∈ b :: rest2, sa.sin_family = AF_INET :=
        fun sa hs => hfam sa (List.mem_cons_of_mem a hs)
      have hrun : (run cfg st ((a :: b :: rest2).map
          (fun sa => Op.connect pid (some sa)))).1 =
          (run cfg (step cfg st (Op.connect pid (some a))).1
            ((b :: rest2).map (fun sa => Op.connect pid (some sa)))).1 := by
        simp [run]
      rw [hrun, List.getLast?_cons_cons]
      exact ih (step cfg st (Op.connect pid (some a))).1 hne2 hfam2

/-- C8: every write-routine invocation creates or overwrites the SessionSecrets
record for the current pid with the parse_session result; read-routine entry
and return never touch the secrets cache; and no operation ever deletes a
SessionSecrets entry. -/
theorem C8_secrets_write_only_never_deleted (cfg : Config) (st : ProbeState) :
    (∀ (pid sslPtr bufPtr len : Nat) (vr : Option Int) (jtv : Nat)
        (penv : ParseEnv) (comm : List Nat) (mem : Memory),
      (step cfg st
          (Op.sslWrite pid sslPtr bufPtr len vr jtv penv comm mem)).1.tls_information_cache
        pid = some (parse_session penv sslPtr)) ∧
    (∀ (pid bufPtr : Nat) (vr : Option Int) (jl jir : Nat),
      (step cfg st (Op.sslRead pid bufPtr vr jl jir)).1.tls_information_cache =
        st.tls_information_cache) ∧
    (∀ (pid : Nat) (rv : Int) (mok : Bool) (obl obv obr jtv : Nat)
        (comm : List Nat) (mem : Memory),
      (step cfg st
          (Op.sslReadRet pid rv mok obl obv obr jtv comm mem)).1.tls_information_cache =
        st.tls_information_cache) ∧
    (∀ (op : Op) (p : Nat) (v : TLS_information_t),
      st.tls_information_cache p = some v →
        (step cfg st op).1.tls_information_cache p ≠ none) := by
  refine ⟨?_, ?_, ?_, ?_⟩
  · intro pid sslPtr bufPtr len vr jtv penv comm mem
    simp only [step]
    rw [SSL_write_tls_info cfg st pid sslPtr bufPtr len vr jtv penv comm mem]
    exact mapUpdate_same st.tls_information_cache pid (parse_session penv sslPtr)
  · intro pid bufPtr vr jl jir
    rfl
  · intro pid rv mok obl obv obr jtv comm mem
    exact SSL_read_ret_tls_info cfg st pid rv mok obl obv obr jtv comm mem
  · intro op p v hv
    cases op with
    | connect pid sa =>
      cases sa with
      | none => simp [step, sys_enter_connect, hv]
      | some a =>
        by_cases hf : a.sin_family ≠ AF_INET
        · simp only [step, sys_enter_connect]
          rw [if_pos hf, hv]
          simp
        · simp only [step, sys_enter_connect]
          rw [if_neg hf]
          show st.tls_information_cache p ≠ none
          rw [hv]
          simp
    | sslRead pid bufPtr vr jl jir =>
      show st.tls_information_cache p ≠ none
      rw [hv]
      simp
    | sslReadRet pid rv mok obl obv obr jtv comm mem =>
      simp only [step]
      rw [SSL_read_ret_tls_info cfg st pid rv mok obl obv obr jtv comm mem, hv]
      simp
    | sslWrite pid sslPtr bufPtr len vr jtv penv comm mem =>
      simp only [step]
      rw [SSL_write_tls_info cfg st pid sslPtr bufPtr len vr jtv penv comm mem]
      by_cases hp : p = pid
      · subst hp
        rw [mapUpdate_same]
        simp
      · rw [mapUpdate_other st.tls_information_cache pid (parse_session penv sslPtr) p hp,
          hv]
        simp

/-- C9: when the cross-space read of the session handle fails,
get_tls_version returns the sentinel 65535 (the u16 truncation of -1), and a
write-routine invocation under that failure still emits its event, storing
65535 as the event's tls_version instead of aborting. -/
theorem C9_version_read_failure_sentinel (cfg : Config) (st : ProbeState)
    (pid sslPtr bufPtr len : Nat) (jtv : Nat) (penv : ParseEnv)
    (comm : List Nat) (mem : Memory) (connEv : TLSEvent) (msg : List Nat)
    (hconn : st.pid_cache pid = some connEv)
    (hread : readBytes mem bufPtr 64 = some msg) :
    get_tls_version none = 65535 ∧
    (step cfg st (Op.sslWrite pid sslPtr bufPtr len none jtv penv comm mem)).2.map
      (fun e => e.tls_version) = [65535] := by
  have h65 : get_tls_version none = 65535 := by decide
  refine ⟨h65, ?_⟩
  simp only [step, SSL_write]
  rw [SSL_read_write_emit cfg
    ({ st with tls_information_cache :=
        mapUpdate st.tls_information_cache pid (parse_session penv sslPtr) })
    pid comm mem (get_tls_version none)
    ({ ptr := bufPtr, length := len % 4294967296,
       tls_version := jtv, is_read := 0 }) connEv msg hconn hread]
  simp [h65]

/-- C10: at read-routine return, every return value other than exactly -1 is
treated as success: the event's payload_length is the u32 conversion of the
return value, so 0 yields payload_length 0 and -2 yields 4294967294. -/
theorem C10_only_minus_one_discarded (cfg : Config) (st : ProbeState)
    (pid : Nat) (retVal : Int) (obl obv obr jtv : Nat) (comm : List Nat)
    (mem : Memory) (b : Nat) (connEv : TLSEvent) (msg : List Nat)
    (hret : retVal ≠ -1)
    (hpend : st.SSL_read_buffers pid = some b)
    (hconn : st.pid_cache pid = some connEv)
    (hread : readBytes mem b 64 = some msg) :
    (step cfg st (Op.sslReadRet pid retVal true obl obv obr jtv comm mem)).2.map
      (fun e => e.message_length) = [toU32 retVal] ∧
    toU32 0 = 0 ∧ toU32 (-2) = 4294967294 := by
  refine ⟨?_, by decide, by decide⟩
  simp only [step, SSL_read_ret, if_neg hret, hpend]
  rw [SSL_read_write_emit cfg st pid comm mem (obv % 65536)
    ({ ptr := b, length := toU32 retVal, tls_version := jtv, is_read := 1 })
    connEv msg hconn hread]
  simp

/-- Witness for C1: pid 1 connected to sa443, then writes 10 bytes at
address 100 in a fully readable memory. -/
theorem C1_write_emits_single_event_witness :
    (stConn.pid_cache 1 = some (connEvent sa443) ∧ (10 : Nat) < 4294967296 ∧
      readBytes mem7 100 64 = some (List.replicate 64 7)) ∧
    (step cfg0 stConn (Op.sslWrite 1 0 100 10 (some 771) 0 penv0 [] mem7)).2 =
      [{ addr := (connEvent sa443).addr, port := (connEvent sa443).port,
         tls_version := get_tls_version (some 771), comm := [],
         message := List.replicate 64 7, message_length := 10, pid := 1,
         is_read := 0 }] ∧
    readBytes mem7 100 (min 64 10) = some ((List.replicate 64 7).take (min 64 10)) :=
  ⟨⟨by decide, by decide, by decide⟩,
    (C1_write_emits_single_event cfg0 stConn 1 0 100 10 (some 771) 0 penv0 []
      mem7 (connEvent sa443) (List.replicate 64 7) (by decide) (by decide)
      (by decide)).1,
    (C1_write_emits_single_event cfg0 stConn 1 0 100 10 (some 771) 0 penv0 []
      mem7 (connEvent sa443) (List.replicate 64 7) (by decide) (by decide)
      (by decide)).2⟩

/-- Witness for C2: pid 2 attempts a family-10 connect, then writes and
returns from a read, with no IPv4 connect anywhere in the trace. -/
theorem C2_non_ipv4_never_emits_witness :
    (sa10.sin_family ≠ AF_INET ∧ emptyState.pid_cache 2 = none ∧
      (∀ op ∈ ops2, establishesIPv4 2 op = false)) ∧
    sys_enter_connect emptyState 2 (some sa10) = emptyState ∧
    (run cfg0 emptyState ops2).1.pid_cache 2 = none ∧
    ∀ e ∈ (run cfg0 emptyState ops2).2, e.pid ≠ 2 :=
  ⟨⟨by decide, by decide, by decide⟩,
    (C2_non_ipv4_never_emits cfg0 emptyState 2 sa10 ops2 (by decide) (by decide)
      (by decide)).1,
    (C2_non_ipv4_never_emits cfg0 emptyState 2 sa10 ops2 (by decide) (by decide)
      (by decide)).2.1,
    (C2_non_ipv4_never_emits cfg0 emptyState 2 sa10 ops2 (by decide) (by decide)
      (by decide)).2.2⟩

/-- Witness for C3: pid 1 has a pending pointer 555, a -1 return changes
nothing, and a fresh entry at 600 overwrites the stored pointer. -/
theorem C3_failed_read_keeps_pending_next_entry_overwrites_witness :
    stPend.SSL_read_buffers 1 = some 555 ∧
    (step cfg0 stPend (Op.sslReadRet 1 (-1) true 0 9999 0 0 [] mem7)).2 = [] ∧
    (step cfg0 stPend (Op.sslReadRet 1 (-1) true 0 9999 0 0 [] mem7)).1 = stPend ∧
    (step cfg0 stPend
        (Op.sslReadRet 1 (-1) true 0 9999 0 0 [] mem7)).1.SSL_read_buffers 1 =
      some 555 ∧
    (SSL_read stPend 1 600 (some 770) 8 9).SSL_read_buffers 1 = some 600 :=
  ⟨by decide,
    (C3_failed_read_keeps_pending_next_entry_overwrites cfg0 stPend 1 555 true
      0 9999 0 0 [] mem7 600 (some 770) 8 9 (by decide)).1,
    (C3_failed_read_keeps_pending_next_entry_overwrites cfg0 stPend 1 555 true
      0 9999 0 0 [] mem7 600 (some 770) 8 9 (by decide)).2.1,
    (C3_failed_read_keeps_pending_next_entry_overwrites cfg0 stPend 1 555 true
      0 9999 0 0 [] mem7 600 (some 770) 8 9 (by decide)).2.2.1,
    (C3_failed_read_keeps_pending_next_entry_overwrites cfg0 stPend 1 555 true
      0 9999 0 0 [] mem7 600 (some 770) 8 9 (by decide)).2.2.2⟩

/-- Witness for the amended C4: a return value of 7 with a pending buffer
present deletes the pending buffer. -/
theorem C4_pending_deleted_on_successful_return_witness :
    ((7 : Int) ≠ -1 ∧ stPend.SSL_read_buffers 1 = some 555) ∧
    (step cfg0 stPend
        (Op.sslReadRet 1 7 true 0 9999 0 0 [] mem7)).1.SSL_read_buffers 1 =
      none :=
  ⟨⟨by decide, by decide⟩,
    C4_pending_deleted_on_successful_return cfg0 stPend 1 7 0 9999 0 0 [] mem7
      555 (by decide) (by decide)⟩

/-- Witness for C5: a 100-byte write from stConn emits eW, whose capture is
exactly 64 bytes while its payload_length stays 100. -/
theorem C5_truncation_law_witness :
    (eW ∈ (step cfg0 stConn opW).2 ∧ 64 < eW.message_length) ∧
    eW.message.length = 64 ∧ opRequestedLength opW = some eW.message_length :=
  ⟨⟨by decide, by decide⟩,
    (C5_truncation_law cfg0 stConn opW eW (by decide) (by decide)).1,
    (C5_truncation_law cfg0 stConn opW eW (by decide) (by decide)).2⟩

/-- Witness for C7: two IPv4 connects for pid 1 leave exactly the second
record. -/
theorem C7_connect_idempotent_last_wins_witness :
    (([sa80, sa443] : List SockAddrIn) ≠ [] ∧
      (∀ sa ∈ [sa80, sa443], sa.sin_family = AF_INET)) ∧
    (run cfg0 emptyState
        ([sa80, sa443].map (fun sa => Op.connect 1 (some sa)))).1.pid_cache 1 =
      ([sa80, sa443] : List SockAddrIn).getLast?.map connEvent :=
  ⟨⟨by decide, by decide⟩,
    C7_connect_idempotent_last_wins cfg0 1 [sa80, sa443] emptyState (by decide)
      (by decide)⟩

/-- Witness for C8: a read return on pid 2 leaves pid 1's cached secrets
present. -/
theorem C8_secrets_write_only_never_deleted_witness :
    stInfo.tls_information_cache 1 = some info0 ∧
    (step cfg0 stInfo
        (Op.sslReadRet 2 50 true 0 9999 0 0 [] mem7)).1.tls_information_cache 1 ≠
      none :=
  ⟨by decide,
    (C8_secrets_write_only_never_deleted cfg0 stInfo).2.2.2
      (Op.sslReadRet 2 50 true 0 9999 0 0 [] mem7) 1 info0 (by decide)⟩

/-- Witness for C9: a write with a failed version read from stConn emits one
event carrying the 65535 sentinel. -/
theorem C9_version_read_failure_sentinel_witness :
    (stConn.pid_cache 1 = some (connEvent sa443) ∧
      readBytes mem7 100 64 = some (List.replicate 64 7)) ∧
    get_tls_version none = 65535 ∧
    (step cfg0 stConn (Op.sslWrite 1 0 100 10 none 0 penv0 [] mem7)).2.map
      (fun e => e.tls_version) = [65535] :=
  ⟨⟨by decide, by decide⟩,
    (C9_version_read_failure_sentinel cfg0 stConn 1 0 100 10 0 penv0 [] mem7
      (connEvent sa443) (List.replicate 64 7) (by decide) (by decide)).1,
    (C9_version_read_failure_sentinel cfg0 stConn 1 0 100 10 0 penv0 [] mem7
      (connEvent sa443) (List.replicate 64 7) (by decide) (by decide)).2⟩

/-- Witness for C10: a read return of 0 from stBoth yields payload_length 0,
and the u32 conversion of -2 is 4294967294. -/
theorem C10_only_minus_one_discarded_witness :
    ((0 : Int) ≠ -1 ∧ stBoth.SSL_read_buffers 1 = some 555 ∧
      stBoth.pid_cache 1 = some (connEvent sa443) ∧
      readBytes mem7 555 64 = some (List.replicate 64 7)) ∧
    (step cfg0 stBoth (Op.sslReadRet 1 0 true 0 9999 0 0 [] mem7)).2.map
      (fun e => e.message_length) = [toU32 0] ∧
    toU32 0 = 0 ∧ toU32 (-2) = 4294967294 :=
  ⟨⟨by decide, by decide, by decide, by decide⟩,
    (C10_only_minus_one_discarded cfg0 stBoth 1 0 0 9999 0 0 [] mem7 555
      (connEvent sa443) (List.replicate 64 7) (by decide) (by decide)
      (by decide) (by decide)).1,
    (C10_only_minus_one_discarded cfg0 stBoth 1 0 0 9999 0 0 [] mem7 555
      (connEvent sa443) (List.replicate 64 7) (by decide) (by decide)
      (by decide) (by decide)).2⟩

end Peetch
